import Mathlib

/-!
Verification of the uACR monitoring and treatment-adherence engine
(`scripts/uacr_monitoring_adherence_algorithm.py`).

The Python code is shallowly embedded: floats become rationals (`ℚ`),
Python ints become `Int`, ISO date strings become a pair of the raw text
(Python sorts readings by the raw string) and the result of
`datetime.fromisoformat` (`none` models a `ValueError`), optional dict
entries fetched with `.get(key, default)` become fields holding the
defaulted value, and code that can raise returns `Except PyErr`.
-/

deriving instance DecidableEq for Except

namespace RenalGuard

/-- Exceptions the engine can raise: Python's `ZeroDivisionError` and the
`ValueError` raised by `datetime.fromisoformat` on a malformed date. -/
inductive PyErr where
  | divisionByZero
  | dateParse
deriving DecidableEq

/-- An ISO date string as stored in patient records: the raw text, which
is what Python's `sorted(key=lambda x: x['date'])` compares, and the
result of parsing it with `datetime.fromisoformat` as a day ordinal
(`none` when the string is malformed and parsing raises `ValueError`). -/
structure DateStr where
  text : String
  parsed : Option Int
deriving DecidableEq

/-- One entry of a patient's `uacr_history`: a dated uACR reading. -/
structure Reading where
  date : DateStr
  value : ℚ
deriving DecidableEq

/-- The `jardiance` block of a patient record.  Optional dict entries are
modelled as fields already holding the `.get` default (`MPR`/`PDC`/rates
default 0, `refill_gap_days` defaults 0, lists default empty). -/
structure Jardiance where
  prescribed : Bool
  medication : String
  mpr : ℚ
  pdc : ℚ
  adherence_category : String
  last_30_days : ℚ
  last_90_days : ℚ
  refill_gap_days : Int
  refill_dates : List DateStr
  days_supply : Int
  barriers : List String
  interventions : List String
deriving DecidableEq

/-- A patient snapshot, with the fields the engine reads.  A record with
no `jardiance` key is modelled by `jardiance = none`. -/
structure Patient where
  patientId : String
  name : String
  eGFR : ℚ
  ckdStage : Int
  uACR : ℚ
  comorbidities : List String
  uacr_history : List Reading
  jardiance : Option Jardiance
deriving DecidableEq

/-- `uACRCategory` enum: the clinical bands. -/
inductive uACRCategory where
  | NORMOALBUMINURIA
  | MICROALBUMINURIA
  | MACROALBUMINURIA
deriving DecidableEq

/-- `WorseningLevel` enum. -/
inductive WorseningLevel where
  | NO_CHANGE
  | MILD
  | MODERATE
  | SEVERE
  | CATEGORY_PROGRESSION
deriving DecidableEq

/-- `TreatmentRecommendation` enum. -/
inductive TreatmentRecommendation where
  | CONTINUE_MONITORING
  | CONSIDER_TREATMENT
  | STRONGLY_RECOMMEND
  | URGENT_TREATMENT
deriving DecidableEq

/-- Result record of `analyze_uacr_change` (`uACRAnalysis` dataclass). -/
structure uACRAnalysis where
  patient_id : String
  patient_name : String
  current_uacr : ℚ
  previous_uacr : ℚ
  percent_change : ℚ
  current_category : uACRCategory
  previous_category : uACRCategory
  worsening_level : WorseningLevel
  is_worsening : Bool
  date_current : String
  date_previous : String
  days_between : Int
deriving DecidableEq

/-- `categorize_uacr`: band A below 30, band B up to 300, band C above. -/
def categorize_uacr (uacr_value : ℚ) : uACRCategory :=
  if uacr_value < 30 then .NORMOALBUMINURIA
  else if uacr_value ≤ 300 then .MICROALBUMINURIA
  else .MACROALBUMINURIA

/-- One insertion step of the stable descending sort below: `r` is placed
before the first element whose date text is not greater than its own.
Date texts are compared lexicographically by code point (written on the
underlying character list, which is how both Python and Lean order
strings). -/
def insertByDateDesc (r : Reading) : List Reading → List Reading
  | [] => [r]
  | x :: xs =>
    if ¬ r.date.text.data < x.date.text.data then r :: x :: xs
    else x :: insertByDateDesc r xs

/-- `sorted(patient['uacr_history'], key=lambda x: x['date'], reverse=True)`:
Python's stable descending sort on the raw date text, realised as a stable
structural insertion sort (the output of a stable sort is uniquely
determined by the key order, so this agrees with any stable
implementation). -/
def sortByDateDesc : List Reading → List Reading
  | [] => []
  | x :: xs => insertByDateDesc x (sortByDateDesc xs)

/-- The worsening-level assignment block of `analyze_uacr_change`: the
`is_worsening = current > previous` flag, refined by the elif chain over
the category comparison and the percent-change thresholds, with the final
`else` resetting `is_worsening` to false. -/
def worseningAssignment (current_value previous_value percent_change : ℚ)
    (current_category previous_category : uACRCategory) : WorseningLevel × Bool :=
  if ¬ current_value > previous_value then (.NO_CHANGE, false)
  else if current_category ≠ previous_category then (.CATEGORY_PROGRESSION, true)
  else if percent_change > 100 then (.SEVERE, true)
  else if percent_change > 50 then (.MODERATE, true)
  else if percent_change > 30 then (.MILD, true)
  else (.NO_CHANGE, false)

/-- `analyze_uacr_change`: with fewer than two readings returns `None`;
otherwise takes the two most recent readings, computes the percent change
(raising `ZeroDivisionError` when the previous value is 0), classifies the
worsening level, and parses the two dates (raising `ValueError` on a
malformed date) to report the days between them. -/
def analyze_uacr_change (patient : Patient) : Except PyErr (Option uACRAnalysis) :=
  match sortByDateDesc patient.uacr_history with
  | current :: previous :: _ =>
    let current_value := current.value
    let previous_value := previous.value
    if previous_value = 0 then .error .divisionByZero
    else
      let percent_change := (current_value - previous_value) / previous_value * 100
      let current_category := categorize_uacr current_value
      let previous_category := categorize_uacr previous_value
      let level : WorseningLevel × Bool :=
        worseningAssignment current_value previous_value percent_change
          current_category previous_category
      match current.date.parsed, previous.date.parsed with
      | some date_current, some date_previous =>
        .ok (some
          { patient_id := patient.patientId
            patient_name := patient.name
            current_uacr := current_value
            previous_uacr := previous_value
            percent_change := percent_change
            current_category := current_category
            previous_category := previous_category
            worsening_level := level.1
            is_worsening := level.2
            date_current := current.date.text
            date_previous := previous.date.text
            days_between := date_current - date_previous })
      | _, _ => .error .dateParse
  | _ => .ok none

/-- Result record of `analyze_adherence` (`AdherenceAnalysis` dataclass). -/
structure AdherenceAnalysis where
  on_treatment : Bool
  medication : Option String
  mpr : Option ℚ
  pdc : Option ℚ
  adherence_category : Option String
  last_30_days : Option ℚ
  last_90_days : Option ℚ
  refill_gap_days : Option Int
  is_adherent : Bool
  barriers : List String
  interventions : List String
deriving DecidableEq

/-- The all-empty assessment `analyze_adherence` returns when the patient
has no `jardiance` record or is not prescribed. -/
def emptyAdherence : AdherenceAnalysis :=
  { on_treatment := false
    medication := none
    mpr := none
    pdc := none
    adherence_category := none
    last_30_days := none
    last_90_days := none
    refill_gap_days := none
    is_adherent := false
    barriers := []
    interventions := [] }

/-- `analyze_adherence`: patients without a prescribed `jardiance` block get
the empty assessment; otherwise the stored metrics are reported and the
adherent flag is `MPR >= 80 and refill_gap_days <= 7`. -/
def analyze_adherence (patient : Patient) : AdherenceAnalysis :=
  match patient.jardiance with
  | none => emptyAdherence
  | some j =>
    if ¬ j.prescribed then emptyAdherence
    else
      { on_treatment := true
        medication := some j.medication
        mpr := some j.mpr
        pdc := some j.pdc
        adherence_category := some j.adherence_category
        last_30_days := some j.last_30_days
        last_90_days := some j.last_90_days
        refill_gap_days := some j.refill_gap_days
        is_adherent := decide (j.mpr ≥ 80 ∧ j.refill_gap_days ≤ 7)
        barriers := j.barriers
        interventions := j.interventions }

/-- `calculate_mpr`: `0.0` with no refills, otherwise
`min(100, refills * days_supply / period_days * 100)`; Python raises
`ZeroDivisionError` when `period_days == 0`. -/
def calculate_mpr (refill_dates : List DateStr) (days_supply period_days : Int) :
    Except PyErr ℚ :=
  if refill_dates.isEmpty then .ok 0
  else if period_days = 0 then .error .divisionByZero
  else .ok (min ((refill_dates.length * days_supply : ℚ) / (period_days : ℚ) * 100) 100)

/-- The set of days one refill contributes in `calculate_pdc`: the days
`refill + i` for `i` in `range(days_supply)` that satisfy
`start <= day <= end` (a negative `days_supply` gives an empty range). -/
def refillWindow (refill : Int) (days_supply start_day end_day : Int) : Finset ℤ :=
  ((Finset.range days_supply.toNat).image (fun i : ℕ => refill + (i : ℤ))).filter
    (fun day => start_day ≤ day ∧ day ≤ end_day)

/-- The accumulated `covered_days` set of `calculate_pdc` after looping
over the given refill dates. -/
def coveredDays (refills : List Int) (days_supply start_day end_day : Int) : Finset ℤ :=
  refills.foldl (fun acc r => acc ∪ refillWindow r days_supply start_day end_day) ∅

/-- The sequential `datetime.fromisoformat` parsing of the refill dates
inside the `calculate_pdc` loop: the first malformed date raises
`ValueError`. -/
def parseDates : List DateStr → Except PyErr (List Int)
  | [] => .ok []
  | d :: ds =>
    match d.parsed with
    | some r =>
      match parseDates ds with
      | .ok rest => .ok (r :: rest)
      | .error e => .error e
    | none => .error .dateParse

/-- `calculate_pdc`: `0.0` with no refills; parses the period bounds, returns
`0.0` when the period is not positive; otherwise parses every refill date,
accumulates the set of covered days within the period, and returns
`min(100, |covered_days| / period_days * 100)`.  Any malformed date raises
`ValueError`. -/
def calculate_pdc (refill_dates : List DateStr) (days_supply : Int)
    (start_date end_date : DateStr) : Except PyErr ℚ :=
  if refill_dates.isEmpty then .ok 0
  else
    match start_date.parsed, end_date.parsed with
    | some start_day, some end_day =>
      let period_days := end_day - start_day
      if period_days ≤ 0 then .ok 0
      else
        match parseDates refill_dates with
        | .ok refills =>
          .ok (min (((coveredDays refills days_supply start_day end_day).card : ℚ)
                     / (period_days : ℚ) * 100) 100)
        | .error e => .error e
    | _, _ => .error .dateParse

/-- Tags for the rationale fragments `evaluate_treatment_eligibility`
appends to its `reasons` list; string formatting of each fragment is
presentation-only and not modelled. -/
inductive Reason where
  | belowEgfrRange
  | diabeticStage (stage : Int)
  | nonDiabeticStage (stage : Int)
  | macroalbuminuria (uacr : ℚ)
  | significantAlbuminuria (uacr : ℚ)
  | microalbuminuria (uacr : ℚ)
  | hypertension
  | heartFailure
  | advancedStage (stage : Int)
deriving DecidableEq

/-- `evaluate_treatment_eligibility`: rejects eGFR below 20, then applies
the diabetic stage-2+ branch (tier escalating with uACR at 300/200/30) or
the non-diabetic stage-3+ with uACR at least 200 branch (tier at 300),
appends supporting comorbidity reasons for eligible patients, and forces
the tier to urgent at stage 4 and above. -/
def evaluate_treatment_eligibility (patient : Patient) :
    Bool × TreatmentRecommendation × List Reason :=
  let egfr := patient.eGFR
  let ckd_stage := patient.ckdStage
  let uacr := patient.uACR
  let comorbidities := patient.comorbidities
  let has_diabetes := "Diabetes" ∈ comorbidities
  if egfr < 20 then (false, .CONTINUE_MONITORING, [.belowEgfrRange])
  else
    let primary : Bool × TreatmentRecommendation × List Reason :=
      if has_diabetes ∧ ckd_stage ≥ 2 then
        if uacr ≥ 300 then
          (true, .URGENT_TREATMENT, [.diabeticStage ckd_stage, .macroalbuminuria uacr])
        else if uacr ≥ 200 then
          (true, .STRONGLY_RECOMMEND, [.diabeticStage ckd_stage, .significantAlbuminuria uacr])
        else if uacr ≥ 30 then
          (true, .STRONGLY_RECOMMEND, [.diabeticStage ckd_stage, .microalbuminuria uacr])
        else
          (true, .CONSIDER_TREATMENT, [.diabeticStage ckd_stage])
      else if ¬ has_diabetes ∧ ckd_stage ≥ 3 ∧ uacr ≥ 200 then
        if uacr ≥ 300 then
          (true, .URGENT_TREATMENT, [.nonDiabeticStage ckd_stage, .macroalbuminuria uacr])
        else
          (true, .STRONGLY_RECOMMEND, [.nonDiabeticStage ckd_stage, .significantAlbuminuria uacr])
      else (false, .CONTINUE_MONITORING, [])
    if primary.1 then
      let reasons := primary.2.2
        ++ (if "Hypertension" ∈ comorbidities then [Reason.hypertension] else [])
        ++ (if "Heart Failure" ∈ comorbidities then [Reason.heartFailure] else [])
      if ckd_stage ≥ 4 then
        (true, .URGENT_TREATMENT, reasons ++ [.advancedStage ckd_stage])
      else (true, primary.2.1, reasons)
    else primary

/-- The `ClinicalAlert` dataclass.  The wall-clock `alert_id`/`timestamp`
and the prose `message`/actions/rationale are presentation-only and are
not modelled; every field a claim depends on is kept. -/
structure ClinicalAlert where
  severity : String
  patient_id : String
  patient_name : String
  alert_type : String
  uacr_analysis : uACRAnalysis
  adherence_analysis : Option AdherenceAnalysis
  treatment_recommendation : Option TreatmentRecommendation
deriving DecidableEq

/-- `generate_clinical_alert`: maps the worsening level to a severity
string, tags the alert by treatment status, and for patients not on
treatment re-runs the eligibility evaluation to attach a treatment
recommendation (on-treatment alerts carry `None`). -/
def generate_clinical_alert (patient : Patient) (uacr_analysis : uACRAnalysis)
    (adherence_analysis : Option AdherenceAnalysis) : ClinicalAlert :=
  let severity :=
    if uacr_analysis.worsening_level = .SEVERE then "CRITICAL"
    else if uacr_analysis.worsening_level = .CATEGORY_PROGRESSION then "HIGH"
    else if uacr_analysis.worsening_level = .MODERATE then "HIGH"
    else if uacr_analysis.worsening_level = .MILD then "MODERATE"
    else "LOW"
  let on_treatment :=
    match adherence_analysis with
    | some a => a.on_treatment
    | none => false
  let alert_type :=
    if on_treatment then "UACR_WORSENING_ON_TREATMENT" else "UACR_WORSENING_UNTREATED"
  let treatment_recommendation :=
    if on_treatment then none
    else some (evaluate_treatment_eligibility patient).2.1
  { severity := severity
    patient_id := patient.patientId
    patient_name := uacr_analysis.patient_name
    alert_type := alert_type
    uacr_analysis := uacr_analysis
    adherence_analysis := adherence_analysis
    treatment_recommendation := treatment_recommendation }

/-- `process_patient`: runs the trend analysis (propagating its errors),
returns `None` unless it reports worsening, and otherwise composes the
alert from the adherence assessment. -/
def process_patient (patient : Patient) : Except PyErr (Option ClinicalAlert) := do
  let uacr_analysis ← analyze_uacr_change patient
  match uacr_analysis with
  | none => pure none
  | some ua =>
    if ua.is_worsening = false then pure none
    else
      let adherence_analysis := analyze_adherence patient
      pure (some (generate_clinical_alert patient ua (some adherence_analysis)))

/-- `process_database`: folds `process_patient` over the patient list in
input order, collecting the non-null alerts; a per-patient exception
propagates and aborts the whole batch. -/
def process_database (patients : List Patient) : Except PyErr (List ClinicalAlert) :=
  patients.foldlM (fun alerts patient => do
    let alert ← process_patient patient
    match alert with
    | some a => pure (alerts ++ [a])
    | none => pure alerts) []

/-! Spec-side definitions, written from the claims' words, to be compared
with the functions embedded from the source. -/

/-- The claimed band classification: band A if the value is below 30,
band B if it is between 30 and 300 inclusive, band C above 300. -/
def bandSpec (value : ℚ) : uACRCategory :=
  if value < 30 then .NORMOALBUMINURIA
  else if 30 ≤ value ∧ value ≤ 300 then .MICROALBUMINURIA
  else .MACROALBUMINURIA

/-- The claimed worsening classification: no-change when not strictly
increasing or when the percent change stays at or below 30; band change
takes precedence over the percentage tiers; then severe above 100,
moderate in (50, 100], mild in (30, 50]. -/
def claimWorsening (current previous : ℚ) : WorseningLevel :=
  let pct := (current - previous) / previous * 100
  if current ≤ previous then .NO_CHANGE
  else if bandSpec current ≠ bandSpec previous then .CATEGORY_PROGRESSION
  else if pct > 100 then .SEVERE
  else if 50 < pct ∧ pct ≤ 100 then .MODERATE
  else if 30 < pct ∧ pct ≤ 50 then .MILD
  else .NO_CHANGE

lemma bandSpec_eq_categorize (v : ℚ) : bandSpec v = categorize_uacr v := by
  unfold bandSpec categorize_uacr
  by_cases h1 : v < 30
  · simp [h1]
  · by_cases h2 : v ≤ 300
    · simp [h1, h2, le_of_not_lt h1]
    · simp [h1, h2]

lemma worseningAssignment_spec (cv pv : ℚ) :
    worseningAssignment cv pv ((cv - pv) / pv * 100)
      (categorize_uacr cv) (categorize_uacr pv)
      = (claimWorsening cv pv, decide (claimWorsening cv pv ≠ .NO_CHANGE)) := by
  unfold worseningAssignment claimWorsening
  rw [bandSpec_eq_categorize, bandSpec_eq_categorize]
  by_cases h0 : cv ≤ pv
  · simp [h0, not_lt.mpr h0]
  · have hgt : cv > pv := lt_of_not_ge h0
    by_cases hcat : categorize_uacr cv = categorize_uacr pv
    · by_cases h100 : (cv - pv) / pv * 100 > 100
      · simp [h0, hgt, hcat, h100]
      · by_cases h50 : (cv - pv) / pv * 100 > 50
        · simp [h0, hgt, hcat, h100, h50, le_of_not_lt h100]
        · by_cases h30 : (cv - pv) / pv * 100 > 30
          · simp [h0, hgt, hcat, h100, h50, h30, le_of_not_lt h50]
          · simp [h0, hgt, hcat, h100, h50, h30]
    · simp [h0, hgt, hcat]

/-- C1: for a snapshot whose sorted history has at least two dated
readings with a nonzero previous value, the Trend Analyzer classifies the
worsening level exactly as the claim states — no-change when not strictly
increasing or when the percent change is at most 30, category progression
(bands A below 30, B up to 300, C above) overriding the percentage tiers,
severe above 100 percent, moderate in (50, 100], mild in (30, 50] — and
`is_worsening` is true exactly for the four non-no-change levels. -/
theorem trend_analyzer_matches_claim (p : Patient) (current previous : Reading)
    (rest : List Reading) (dc dp : Int)
    (hsort : sortByDateDesc p.uacr_history = current :: previous :: rest)
    (hprev : previous.value ≠ 0)
    (hdc : current.date.parsed = some dc)
    (hdp : previous.date.parsed = some dp) :
    ∃ ua : uACRAnalysis, analyze_uacr_change p = .ok (some ua) ∧
      ua.current_uacr = current.value ∧
      ua.previous_uacr = previous.value ∧
      ua.worsening_level = claimWorsening current.value previous.value ∧
      ua.is_worsening = decide (claimWorsening current.value previous.value ≠ .NO_CHANGE) := by
  have key := worseningAssignment_spec current.value previous.value
  simp only [analyze_uacr_change, hsort]
  rw [if_neg hprev]
  simp only [hdc, hdp]
  refine ⟨_, rfl, rfl, rfl, ?_, ?_⟩ <;> simp only [key]

/-- The most recent reading of `demoPatient`: uACR 160 on 2024-04-01. -/
def demoCurrent : Reading :=
  { date := { text := "2024-04-01", parsed := some 191 }, value := 160 }

/-- The older reading of `demoPatient`: uACR 100 on 2024-01-01. -/
def demoPrevious : Reading :=
  { date := { text := "2024-01-01", parsed := some 100 }, value := 100 }

/-- A concrete untreated diabetic snapshot whose uACR rose from 100 to 160
(a 60 percent increase inside band B), used to instantiate the proved
theorems on explicit input. -/
def demoPatient : Patient :=
  { patientId := "P001"
    name := "Demo Patient"
    eGFR := 45
    ckdStage := 3
    uACR := 160
    comorbidities := ["Diabetes", "Hypertension"]
    uacr_history := [demoCurrent, demoPrevious]
    jardiance := none }

/-- The alert record the engine computes for `demoPatient`. -/
def demoAnalysis : uACRAnalysis :=
  { patient_id := "P001"
    patient_name := "Demo Patient"
    current_uacr := 160
    previous_uacr := 100
    percent_change := 60
    current_category := .MICROALBUMINURIA
    previous_category := .MICROALBUMINURIA
    worsening_level := .MODERATE
    is_worsening := true
    date_current := "2024-04-01"
    date_previous := "2024-01-01"
    days_between := 91 }

lemma demo_sorted : sortByDateDesc demoPatient.uacr_history = [demoCurrent, demoPrevious] := rfl

lemma demo_analysis :
    analyze_uacr_change demoPatient = .ok (some demoAnalysis) := by
  simp only [analyze_uacr_change, demo_sorted]
  norm_num [demoCurrent, demoPrevious, demoPatient, demoAnalysis,
    worseningAssignment, categorize_uacr]

/-- Witness for C1: the claim theorem instantiated on `demoPatient`, whose
previous value 100 is nonzero and whose 60 percent rise inside band B the
claim classifies as moderate worsening. -/
theorem trend_analyzer_matches_claim_witness :
    ∃ ua : uACRAnalysis, analyze_uacr_change demoPatient = .ok (some ua) ∧
      ua.current_uacr = 160 ∧
      ua.previous_uacr = 100 ∧
      ua.worsening_level = claimWorsening 160 100 ∧
      ua.is_worsening = decide (claimWorsening 160 100 ≠ .NO_CHANGE) :=
  trend_analyzer_matches_claim demoPatient demoCurrent demoPrevious [] 191 100
    rfl (by norm_num [demoPrevious]) rfl rfl

/-- The claimed eligibility decision order: eGFR below 20 rejects; else a
diabetic at stage 2 or above is eligible with tier by uACR (300 urgent,
200 or 30 strongly-recommend, otherwise consider); else a non-diabetic at
stage 3 or above with uACR at least 200 is eligible (300 urgent, else
strongly-recommend); else ineligible; finally an eligible result at stage
4 or above has its tier forced to urgent. -/
def eligibilityClaim (egfr : ℚ) (stage : Int) (diabetic : Bool) (uacr : ℚ) :
    Bool × TreatmentRecommendation :=
  let base : Bool × TreatmentRecommendation :=
    if egfr < 20 then (false, .CONTINUE_MONITORING)
    else if diabetic ∧ stage ≥ 2 then
      (true,
        if uacr ≥ 300 then .URGENT_TREATMENT
        else if uacr ≥ 200 ∨ uacr ≥ 30 then .STRONGLY_RECOMMEND
        else .CONSIDER_TREATMENT)
    else if diabetic = false ∧ stage ≥ 3 ∧ uacr ≥ 200 then
      (true, if uacr ≥ 300 then .URGENT_TREATMENT else .STRONGLY_RECOMMEND)
    else (false, .CONTINUE_MONITORING)
  if base.1 ∧ stage ≥ 4 then (true, .URGENT_TREATMENT) else base

/-- A minimal snapshot exercising the Eligibility Evaluator alone. -/
def eligPatient (egfr : ℚ) (stage : Int) (diabetic : Bool) (uacr : ℚ) : Patient :=
  { patientId := "E"
    name := "E"
    eGFR := egfr
    ckdStage := stage
    uACR := uacr
    comorbidities := if diabetic then ["Diabetes"] else []
    uacr_history := []
    jardiance := none }

/-- First two components (eligible flag and tier) of the evaluator. -/
def eligPair (p : Patient) : Bool × TreatmentRecommendation :=
  ((evaluate_treatment_eligibility p).1, (evaluate_treatment_eligibility p).2.1)

lemma eligPair_eq_claim (p : Patient) :
    eligPair p = eligibilityClaim p.eGFR p.ckdStage
      (decide ("Diabetes" ∈ p.comorbidities)) p.uACR := by
  unfold eligPair evaluate_treatment_eligibility eligibilityClaim
  by_cases he : p.eGFR < 20
  · simp [he]
  · by_cases hd : "Diabetes" ∈ p.comorbidities
    · by_cases hs2 : p.ckdStage ≥ 2
      · by_cases h300 : p.uACR ≥ 300
        · by_cases hs4 : p.ckdStage ≥ 4 <;> simp [he, hd, hs2, h300, hs4]
        · by_cases h200 : p.uACR ≥ 200
          · by_cases hs4 : p.ckdStage ≥ 4 <;> simp [he, hd, hs2, h300, h200, hs4]
          · by_cases h30 : p.uACR ≥ 30
            · by_cases hs4 : p.ckdStage ≥ 4 <;>
                simp [he, hd, hs2, h300, h200, h30, hs4]
            · by_cases hs4 : p.ckdStage ≥ 4 <;>
                simp [he, hd, hs2, h300, h200, h30, hs4]
      · simp [he, hd, hs2]
    · by_cases hs3 : p.ckdStage ≥ 3
      · by_cases h200 : p.uACR ≥ 200
        · by_cases h300 : p.uACR ≥ 300
          · by_cases hs4 : p.ckdStage ≥ 4 <;> simp [he, hd, hs3, h200, h300, hs4]
          · by_cases hs4 : p.ckdStage ≥ 4 <;> simp [he, hd, hs3, h200, h300, hs4]
        · simp [he, hd, hs3, h200]
      · simp [he, hd, hs3]

/-- C2: the Eligibility Evaluator returns exactly the claimed decision
order on every input, and the claim's five sample rows hold (rows that
leave eGFR unstated are instantiated with an in-range eGFR of 48). -/
theorem eligibility_matches_claim :
    (∀ p : Patient,
      eligPair p = eligibilityClaim p.eGFR p.ckdStage
        (decide ("Diabetes" ∈ p.comorbidities)) p.uACR) ∧
    eligPair (eligPatient 15 3 true 320) = (false, .CONTINUE_MONITORING) ∧
    eligPair (eligPatient 48 3 true 320) = (true, .URGENT_TREATMENT) ∧
    eligPair (eligPatient 48 2 true 50) = (true, .STRONGLY_RECOMMEND) ∧
    eligPair (eligPatient 48 3 false 150) = (false, .CONTINUE_MONITORING) ∧
    eligPair (eligPatient 48 3 false 350) = (true, .URGENT_TREATMENT) := by
  refine ⟨eligPair_eq_claim, ?_, ?_, ?_, ?_, ?_⟩ <;>
    rw [eligPair_eq_claim] <;> norm_num [eligPatient, eligibilityClaim]

/-- C9: adding or removing the Hypertension and Heart Failure comorbidity
labels never changes the eligible flag or the recommendation tier — two
inputs agreeing on every other comorbidity give the same pair. -/
theorem hypertension_heart_failure_noninterference (p : Patient) (c : List String)
    (hagree : ∀ s : String, s ≠ "Hypertension" → s ≠ "Heart Failure" →
      (s ∈ p.comorbidities ↔ s ∈ c)) :
    eligPair { p with comorbidities := c } = eligPair p := by
  rw [eligPair_eq_claim, eligPair_eq_claim]
  have hd : ("Diabetes" ∈ c) ↔ ("Diabetes" ∈ p.comorbidities) :=
    (hagree "Diabetes" (by decide) (by decide)).symm
  simp only [hd]

/-- Witness for C9: appending Heart Failure to (and reordering) the
comorbidities of `demoPatient` leaves the eligibility pair unchanged. -/
theorem hypertension_heart_failure_noninterference_witness :
    eligPair { demoPatient with
      comorbidities := ["Hypertension", "Diabetes", "Heart Failure"] }
      = eligPair demoPatient :=
  hypertension_heart_failure_noninterference demoPatient
    ["Hypertension", "Diabetes", "Heart Failure"]
    (by intro s h1 h2; simp [demoPatient, h1, h2])

/-- C7: the Adherence Calculator's adherent flag is true exactly when the
medication record is prescribed with MPR at least 80 and a refill gap of
at most 7 days; a record that is absent or not prescribed yields the
not-on-treatment assessment with all metrics empty and adherent false. -/
theorem adherent_iff_prescribed_mpr_gap (p : Patient) :
    ((analyze_adherence p).is_adherent = true ↔
      ∃ j : Jardiance, p.jardiance = some j ∧ j.prescribed = true ∧
        j.mpr ≥ 80 ∧ j.refill_gap_days ≤ 7) ∧
    ((∀ j : Jardiance, p.jardiance = some j → j.prescribed = false) →
      analyze_adherence p = emptyAdherence) := by
  cases hj : p.jardiance with
  | none =>
    refine ⟨?_, fun _ => ?_⟩
    · simp [analyze_adherence, hj, emptyAdherence]
    · simp [analyze_adherence, hj]
  | some j =>
    by_cases hp : j.prescribed
    · refine ⟨?_, fun hnp => ?_⟩
      · simp [analyze_adherence, hj, hp]
      · exact absurd (hnp j rfl) (by simp [hp])
    · refine ⟨?_, fun _ => ?_⟩
      · simp [analyze_adherence, hj, hp, emptyAdherence]
      · simp [analyze_adherence, hj, hp]

/-- Witness for C7: `demoPatient` has no medication record, so the
calculator returns the empty not-on-treatment assessment. -/
theorem adherent_iff_prescribed_mpr_gap_witness :
    analyze_adherence demoPatient = emptyAdherence :=
  (adherent_iff_prescribed_mpr_gap demoPatient).2
    (by intro j h; simp [demoPatient] at h)

/-- C10: an alert produced by the composer carries a non-empty treatment
recommendation exactly when the adherence assessment is absent or reports
not on treatment, which is also exactly when the alert is tagged as
worsening-untreated; every on-treatment alert carries `none`. -/
theorem recommendation_iff_untreated (p : Patient) (ua : uACRAnalysis)
    (ad : Option AdherenceAnalysis) :
    (((generate_clinical_alert p ua ad).treatment_recommendation ≠ none) ↔
      (ad = none ∨ ∃ a : AdherenceAnalysis, ad = some a ∧ a.on_treatment = false)) ∧
    (((generate_clinical_alert p ua ad).treatment_recommendation ≠ none) ↔
      (generate_clinical_alert p ua ad).alert_type = "UACR_WORSENING_UNTREATED") := by
  cases ad with
  | none => simp [generate_clinical_alert]
  | some a =>
    by_cases h : a.on_treatment <;>
      simp [generate_clinical_alert, h]

lemma except_bind_error {α β : Type} (e : PyErr) (f : α → Except PyErr β) :
    (Except.error e >>= f) = Except.error e := rfl

lemma except_bind_ok {α β : Type} (a : α) (f : α → Except PyErr β) :
    (Except.ok a >>= f) = f a := rfl

lemma except_pure {α : Type} (a : α) : (pure a : Except PyErr α) = .ok a := rfl

/-- C5: processing a patient yields an alert exactly when the trend
analysis is computed and reports worsening, and every produced alert maps
its worsening level to severity as severe to CRITICAL, category
progression to HIGH, moderate to HIGH, mild to MODERATE. -/
theorem alert_iff_worsening (p : Patient) :
    ((∃ a : ClinicalAlert, process_patient p = .ok (some a)) ↔
      (∃ ua : uACRAnalysis, analyze_uacr_change p = .ok (some ua) ∧
        ua.is_worsening = true)) ∧
    (∀ a : ClinicalAlert, process_patient p = .ok (some a) →
      (a.uacr_analysis.worsening_level = .SEVERE → a.severity = "CRITICAL") ∧
      (a.uacr_analysis.worsening_level = .CATEGORY_PROGRESSION → a.severity = "HIGH") ∧
      (a.uacr_analysis.worsening_level = .MODERATE → a.severity = "HIGH") ∧
      (a.uacr_analysis.worsening_level = .MILD → a.severity = "MODERATE")) := by
  cases hu : analyze_uacr_change p with
  | error e =>
    refine ⟨?_, ?_⟩
    · simp [process_patient, hu, except_bind_error, except_bind_ok, except_pure]
    · intro a ha
      simp [process_patient, hu, except_bind_error, except_bind_ok, except_pure] at ha
  | ok o =>
    cases o with
    | none =>
      refine ⟨?_, ?_⟩
      · simp [process_patient, hu, except_bind_error, except_bind_ok, except_pure]
      · intro a ha
        simp [process_patient, hu, except_bind_error, except_bind_ok, except_pure] at ha
    | some ua =>
      by_cases hw : ua.is_worsening = true
      · refine ⟨?_, ?_⟩
        · constructor
          · intro _
            exact ⟨ua, rfl, hw⟩
          · intro _
            exact ⟨generate_clinical_alert p ua (some (analyze_adherence p)),
              by simp [process_patient, hu, hw, except_bind_error, except_bind_ok, except_pure]⟩
        · intro a ha
          simp [process_patient, hu, hw, except_bind_error, except_bind_ok, except_pure] at ha
          subst ha
          refine ⟨?_, ?_, ?_, ?_⟩ <;> intro hl <;>
            simp only [generate_clinical_alert] at hl <;>
            simp [generate_clinical_alert, hl]
      · rw [Bool.not_eq_true] at hw
        refine ⟨?_, ?_⟩
        · simp [process_patient, hu, hw, except_bind_error, except_bind_ok, except_pure]
        · intro a ha
          simp [process_patient, hu, hw, except_bind_error, except_bind_ok, except_pure] at ha

/-- Witness for C5: `demoPatient` shows moderate worsening, so an alert is
produced for it. -/
theorem alert_iff_worsening_witness :
    ∃ a : ClinicalAlert, process_patient demoPatient = .ok (some a) :=
  (alert_iff_worsening demoPatient).1.mpr ⟨demoAnalysis, demo_analysis, rfl⟩

/-- A well formed date string carrying day ordinal `n`. -/
def mkDate (n : Int) : DateStr := { text := toString n, parsed := some n }

/-- The claim's covered set `D`: the distinct calendar days of the period
`[start, end]` that lie in some fill window `[refill, refill + supply)`. -/
def coveredClaim (refills : List Int) (days_supply start_day end_day : Int) : Finset ℤ :=
  (Finset.Icc start_day end_day).filter
    (fun day => ∃ r ∈ refills, r ≤ day ∧ day < r + days_supply)

lemma refillWindow_eq (r ds s e : Int) :
    refillWindow r ds s e = (Finset.Icc s e).filter (fun d => r ≤ d ∧ d < r + ds) := by
  ext d
  simp only [refillWindow, Finset.mem_filter, Finset.mem_image, Finset.mem_range,
    Finset.mem_Icc]
  constructor
  · rintro ⟨⟨i, hi, rfl⟩, hs, he⟩
    exact ⟨⟨hs, he⟩, by omega, by omega⟩
  · rintro ⟨⟨hs, he⟩, hr, hlt⟩
    exact ⟨⟨(d - r).toNat, by omega, by omega⟩, hs, he⟩

lemma coveredClaim_nil (ds s e : Int) : coveredClaim [] ds s e = ∅ := by
  simp [coveredClaim]

lemma coveredClaim_cons (r : Int) (rs : List Int) (ds s e : Int) :
    coveredClaim (r :: rs) ds s e
      = refillWindow r ds s e ∪ coveredClaim rs ds s e := by
  ext d
  simp [coveredClaim, refillWindow_eq, Finset.mem_filter, Finset.mem_union,
    Finset.mem_Icc]
  tauto

lemma coveredDays_eq_aux (rs : List Int) (ds s e : Int) (acc : Finset ℤ) :
    rs.foldl (fun acc r => acc ∪ refillWindow r ds s e) acc
      = acc ∪ coveredClaim rs ds s e := by
  induction rs generalizing acc with
  | nil => simp [coveredClaim_nil]
  | cons r rs ih => simp [List.foldl_cons, ih, coveredClaim_cons, Finset.union_assoc]

lemma coveredDays_eq (rs : List Int) (ds s e : Int) :
    coveredDays rs ds s e = coveredClaim rs ds s e := by
  unfold coveredDays
  rw [coveredDays_eq_aux]
  simp

lemma mkDate_parsed (n : Int) : (mkDate n).parsed = some n := rfl

lemma parseDates_map (rs : List Int) :
    parseDates (rs.map mkDate) = Except.ok rs := by
  induction rs with
  | nil => rfl
  | cons r rs ih => simp [parseDates, mkDate_parsed, ih]

lemma calculate_pdc_eq (rs : List Int) (ds s e : Int) :
    calculate_pdc (rs.map mkDate) ds (mkDate s) (mkDate e)
      = .ok (if rs = [] ∨ e - s ≤ 0 then 0
             else min (((coveredClaim rs ds s e).card : ℚ)
                        / ((e - s : Int) : ℚ) * 100) 100) := by
  cases rs with
  | nil => simp [calculate_pdc]
  | cons r rs' =>
    by_cases hper : e - s ≤ 0
    · simp [calculate_pdc, mkDate_parsed, hper]
    · have hp := parseDates_map (r :: rs')
      simp only [List.map_cons] at hp
      simp [calculate_pdc, mkDate_parsed, hper, hp, coveredDays_eq]

/-- C4: the coverage proportion equals `min(100, |D| / period_days * 100)`
where `D` is the deduplicated set of distinct calendar days covered by
some fill window inside the period, and it is 0 when the refill list is
empty or the period is not positive. -/
theorem pdc_matches_claim (rs : List Int) (ds s e : Int) :
    calculate_pdc (rs.map mkDate) ds (mkDate s) (mkDate e)
      = .ok (if rs = [] ∨ e - s ≤ 0 then 0
             else min (((coveredClaim rs ds s e).card : ℚ)
                        / ((e - s : Int) : ℚ) * 100) 100) :=
  calculate_pdc_eq rs ds s e

lemma calculate_mpr_bounds (refills : List DateStr) (ds period : Int)
    (hds : 0 ≤ ds) (hp : 0 < period) :
    ∃ q : ℚ, calculate_mpr refills ds period = .ok q ∧ 0 ≤ q ∧ q ≤ 100 := by
  unfold calculate_mpr
  by_cases hr : refills.isEmpty
  · exact ⟨0, by simp [hr], le_refl 0, by norm_num⟩
  · have hpne : period ≠ 0 := by omega
    refine ⟨min ((refills.length * ds : ℚ) / (period : ℚ) * 100) 100,
      by rw [if_neg hr, if_neg hpne], ?_, min_le_right _ _⟩
    apply le_min _ (by norm_num)
    apply mul_nonneg _ (by norm_num)
    apply div_nonneg
    · apply mul_nonneg (Nat.cast_nonneg _)
      exact_mod_cast hds
    · exact_mod_cast le_of_lt hp

lemma calculate_mpr_mono (d0 : DateStr) (refills : List DateStr) (ds period : Int)
    (hds : 0 ≤ ds) (hp : 0 < period) (q q' : ℚ)
    (h1 : calculate_mpr refills ds period = .ok q)
    (h2 : calculate_mpr (d0 :: refills) ds period = .ok q') :
    q ≤ q' := by
  have hpne : period ≠ 0 := by omega
  by_cases hr : refills.isEmpty
  · have hq : q = 0 := by
      unfold calculate_mpr at h1
      rw [if_pos hr] at h1
      exact (Except.ok.injEq _ _).mp h1.symm
    obtain ⟨q2, hq2, hq2pos, _⟩ :=
      calculate_mpr_bounds (d0 :: refills) ds period hds hp
    rw [h2] at hq2
    rw [hq, (Except.ok.injEq _ _).mp hq2]
    exact hq2pos
  · unfold calculate_mpr at h1 h2
    rw [if_neg hr, if_neg hpne] at h1
    rw [if_neg (by simp), if_neg hpne] at h2
    rw [← (Except.ok.injEq _ _).mp h1, ← (Except.ok.injEq _ _).mp h2]
    apply min_le_min _ (le_refl _)
    apply mul_le_mul_of_nonneg_right _ (by norm_num)
    apply div_le_div_of_nonneg_right _ _
    · apply mul_le_mul_of_nonneg_right _ (by exact_mod_cast hds)
      simp [List.length_cons]
    · exact_mod_cast le_of_lt hp

lemma coveredClaim_subset_cons (d : Int) (rs : List Int) (ds s e : Int) :
    coveredClaim rs ds s e ⊆ coveredClaim (d :: rs) ds s e := by
  intro x hx
  simp only [coveredClaim, Finset.mem_filter, List.mem_cons] at hx ⊢
  obtain ⟨hIcc, r, hr, hxr⟩ := hx
  exact ⟨hIcc, r, Or.inr hr, hxr⟩

lemma calculate_pdc_bounds (rs : List Int) (ds s e : Int) :
    ∃ q : ℚ, calculate_pdc (rs.map mkDate) ds (mkDate s) (mkDate e) = .ok q ∧
      0 ≤ q ∧ q ≤ 100 := by
  rw [calculate_pdc_eq]
  by_cases hc : rs = [] ∨ e - s ≤ 0
  · exact ⟨0, by rw [if_pos hc], le_refl 0, by norm_num⟩
  · refine ⟨_, by rw [if_neg hc], ?_, min_le_right _ _⟩
    push_neg at hc
    apply le_min _ (by norm_num)
    apply mul_nonneg _ (by norm_num)
    apply div_nonneg (Nat.cast_nonneg _)
    have : (0 : ℤ) < e - s := by omega
    exact_mod_cast le_of_lt this

lemma calculate_pdc_mono (d : Int) (rs : List Int) (ds s e : Int) (q q' : ℚ)
    (h1 : calculate_pdc (rs.map mkDate) ds (mkDate s) (mkDate e) = .ok q)
    (h2 : calculate_pdc ((d :: rs).map mkDate) ds (mkDate s) (mkDate e) = .ok q') :
    q ≤ q' := by
  rw [calculate_pdc_eq] at h1 h2
  by_cases hper : e - s ≤ 0
  · rw [if_pos (Or.inr hper)] at h1
    rw [if_pos (Or.inr hper)] at h2
    rw [← (Except.ok.injEq _ _).mp h1, ← (Except.ok.injEq _ _).mp h2]
  · by_cases hrs : rs = []
    · rw [if_pos (Or.inl hrs)] at h1
      obtain ⟨q2, hq2, hq2pos, _⟩ := calculate_pdc_bounds (d :: rs) ds s e
      rw [calculate_pdc_eq] at hq2
      rw [hq2] at h2
      rw [← (Except.ok.injEq _ _).mp h1, ← (Except.ok.injEq _ _).mp h2]
      exact hq2pos
    · rw [if_neg (by simp [hrs, hper])] at h1
      rw [if_neg (by simp [hper])] at h2
      rw [← (Except.ok.injEq _ _).mp h1, ← (Except.ok.injEq _ _).mp h2]
      apply min_le_min _ (le_refl _)
      apply mul_le_mul_of_nonneg_right _ (by norm_num)
      apply div_le_div_of_nonneg_right _ _
      · exact_mod_cast Finset.card_le_card (coveredClaim_subset_cons d rs ds s e)
      · have : (0 : ℤ) ≤ e - s := by omega
        exact_mod_cast this

/-- Counterexample to C8 as stated: at the non-negative inputs of one
refill, 30 days of supply and a zero-day observation period, the MPR
computation divides by zero instead of returning a value in [0, 100]. -/
theorem mpr_zero_period_counterexample :
    calculate_mpr [mkDate 0] 30 0 = .error .divisionByZero ∧
    (calculate_mpr [mkDate 0] 30 0).toOption = none :=
  ⟨rfl, rfl⟩

/-- C8 as amended: for non-negative days of supply, MPR is defined and in
[0, 100] whenever the observation period is positive (with ≥1 refill and a
zero period it raises a division-by-zero error instead), PDC is defined
and in [0, 100] for all such inputs, and both are monotonically
non-decreasing in refill count for fixed days of supply and period. -/
theorem mpr_pdc_bounds_and_monotonicity (refills : List DateStr) (d0 : DateStr)
    (ds period : Int) (rs : List Int) (d s e : Int)
    (hds : 0 ≤ ds) (hp : 0 < period) :
    (∃ q : ℚ, calculate_mpr refills ds period = .ok q ∧ 0 ≤ q ∧ q ≤ 100) ∧
    (∃ q : ℚ, calculate_pdc (rs.map mkDate) ds (mkDate s) (mkDate e) = .ok q ∧
      0 ≤ q ∧ q ≤ 100) ∧
    (∀ q q' : ℚ, calculate_mpr refills ds period = .ok q →
      calculate_mpr (d0 :: refills) ds period = .ok q' → q ≤ q') ∧
    (∀ q q' : ℚ, calculate_pdc (rs.map mkDate) ds (mkDate s) (mkDate e) = .ok q →
      calculate_pdc ((d :: rs).map mkDate) ds (mkDate s) (mkDate e) = .ok q' →
      q ≤ q') :=
  ⟨calculate_mpr_bounds refills ds period hds hp,
   calculate_pdc_bounds rs ds s e,
   fun q q' h1 h2 => calculate_mpr_mono d0 refills ds period hds hp q q' h1 h2,
   fun q q' h1 h2 => calculate_pdc_mono d rs ds s e q q' h1 h2⟩

/-- Witness for the amended C8: one refill of 30 days of supply over a
90-day period gives a defined MPR inside [0, 100]. -/
theorem mpr_pdc_bounds_and_monotonicity_witness :
    ∃ q : ℚ, calculate_mpr [mkDate 0] 30 90 = .ok q ∧ 0 ≤ q ∧ q ≤ 100 :=
  (mpr_pdc_bounds_and_monotonicity [mkDate 0] (mkDate 40) 30 90 [5] 3 0 10
    (by norm_num) (by norm_num)).1

/-- A snapshot whose previous (second most recent) reading has value 0. -/
def zeroPrevPatient : Patient :=
  { patientId := "P003"
    name := "Zero Previous"
    eGFR := 50
    ckdStage := 3
    uACR := 50
    comorbidities := []
    uacr_history :=
      [ { date := { text := "2024-04-01", parsed := some 191 }, value := 50 },
        { date := { text := "2024-01-01", parsed := some 100 }, value := 0 } ]
    jardiance := none }

/-- A snapshot whose most recent reading has a malformed date string. -/
def badDatePatient : Patient :=
  { patientId := "P004"
    name := "Bad Date"
    eGFR := 50
    ckdStage := 3
    uACR := 160
    comorbidities := []
    uacr_history :=
      [ { date := { text := "2024-13-99", parsed := none }, value := 160 },
        { date := { text := "2024-01-01", parsed := some 100 }, value := 100 } ]
    jardiance := none }

lemma zero_prev_process :
    process_patient zeroPrevPatient = .error .divisionByZero := rfl

lemma bad_date_process :
    process_patient badDatePatient = .error .dateParse := rfl

lemma process_database_error_head (p : Patient) (others : List Patient) (e : PyErr)
    (h : process_patient p = .error e) :
    process_database (p :: others) = .error e := by
  unfold process_database
  simp [List.foldlM, h, except_bind_error]

/-- The alert the engine composes for `demoPatient`: moderate worsening
maps to HIGH, the patient is untreated, and the diabetic stage-3 uACR-160
evaluation recommends treatment strongly. -/
def demoAlert : ClinicalAlert :=
  { severity := "HIGH"
    patient_id := "P001"
    patient_name := "Demo Patient"
    alert_type := "UACR_WORSENING_UNTREATED"
    uacr_analysis := demoAnalysis
    adherence_analysis := some emptyAdherence
    treatment_recommendation := some .STRONGLY_RECOMMEND }

lemma demo_process : process_patient demoPatient = .ok (some demoAlert) := by
  simp only [process_patient, demo_analysis, except_bind_ok]
  norm_num [generate_clinical_alert, demoAnalysis, analyze_adherence, demoPatient,
    emptyAdherence, evaluate_treatment_eligibility, demoAlert, except_pure]
  decide

lemma demo_database : process_database [demoPatient] = .ok [demoAlert] := by
  simp [process_database, List.foldlM, demo_process, except_bind_ok, except_pure]

/-- Counterexample to C3 as stated: for a snapshot whose previous reading
is zero the Batch Processor does not skip silently — processing raises a
division-by-zero error, and a batch containing the patient aborts with it
instead of continuing. -/
theorem zero_previous_counterexample :
    process_patient zeroPrevPatient = .error .divisionByZero ∧
    process_database [zeroPrevPatient, demoPatient] = .error .divisionByZero :=
  ⟨zero_prev_process,
   process_database_error_head zeroPrevPatient [demoPatient] _ zero_prev_process⟩

/-- C3 as amended: for every snapshot whose previous (second most recent)
value is zero, the percent-change division raises a division-by-zero
error that propagates — the patient produces no alert, but the condition
is signalled as an error and a batch containing the patient aborts. -/
theorem zero_previous_propagates (p : Patient) (current previous : Reading)
    (rest : List Reading) (others : List Patient)
    (hsort : sortByDateDesc p.uacr_history = current :: previous :: rest)
    (hzero : previous.value = 0) :
    process_patient p = .error .divisionByZero ∧
    process_database (p :: others) = .error .divisionByZero := by
  have h1 : analyze_uacr_change p = .error .divisionByZero := by
    simp [analyze_uacr_change, hsort, hzero]
  have h2 : process_patient p = .error .divisionByZero := by
    simp [process_patient, h1, except_bind_error]
  exact ⟨h2, process_database_error_head p others _ h2⟩

/-- Witness for the amended C3: the concrete zero-previous snapshot raises
the division-by-zero error and aborts its batch. -/
theorem zero_previous_propagates_witness :
    process_patient zeroPrevPatient = .error .divisionByZero ∧
    process_database [zeroPrevPatient] = .error .divisionByZero :=
  zero_previous_propagates zeroPrevPatient
    { date := { text := "2024-04-01", parsed := some 191 }, value := 50 }
    { date := { text := "2024-01-01", parsed := some 100 }, value := 0 }
    [] [] rfl rfl

/-- Counterexample to C6 as stated: a malformed date in the first
patient's readings aborts the whole batch with the parse error — the
second patient, which alone yields an alert, is never processed and no
failure count is reported alongside alerts. -/
theorem batch_abort_counterexample :
    process_database [badDatePatient, demoPatient] = .error .dateParse ∧
    process_database [demoPatient] = .ok [demoAlert] :=
  ⟨process_database_error_head badDatePatient [demoPatient] _ bad_date_process,
   demo_database⟩

/-- C6 as amended: when the evaluation of one patient fails (for example
on a malformed date), the error propagates out of the batch run — the
batch aborts with that per-patient error rather than continuing with the
remaining patients, and no failure count is reported. -/
theorem patient_failure_aborts_batch (p : Patient) (others : List Patient)
    (e : PyErr) (h : process_patient p = .error e) :
    process_database (p :: others) = .error e :=
  process_database_error_head p others e h

/-- Witness for the amended C6: the malformed-date snapshot aborts a batch
that still had a patient with a reportable alert left to process. -/
theorem patient_failure_aborts_batch_witness :
    process_database [badDatePatient, demoPatient] = .error .dateParse :=
  patient_failure_aborts_batch badDatePatient [demoPatient] .dateParse
    bad_date_process

end RenalGuard
